import Mathlib

/-!
Shallow embedding of the configuration parser (`src/config.rs`) and the
native windowing wrappers (`src/win.rs`) of the clipstack repository.

Rust strings are embedded as `List Char`; Rust's per-line processing of a
`BufRead` stream is embedded as a function over the list of lines.  A Rust
panic (the `.unwrap()` in `parse_hotkey`) is modelled by an `Option` layer:
`none` means the panic was reached.  Machine integers are `Nat` with the
explicit bound `USIZE_MAX` where overflow matters.
-/

deriving instance DecidableEq for Except

/-- Coercion helper: the character list of a string literal. -/
def str (s : String) : List Char := s.data

/-- Rust `str::trim` (whitespace stripped from both ends). -/
def trimList (l : List Char) : List Char :=
  ((l.dropWhile Char.isWhitespace).reverse.dropWhile Char.isWhitespace).reverse

/-- Rust `String::make_ascii_lowercase` applied to a line
(`Char.toLower` lowers exactly the ASCII range, as Rust does here). -/
def lowerLine (l : List Char) : List Char := l.map Char.toLower

/-- Rust `str::split(sep)`: always yields at least one (possibly empty) piece. -/
def splitOnChar (sep : Char) : List Char → List (List Char)
  | [] => [[]]
  | c :: rest =>
    match splitOnChar sep rest with
    | [] => [[c]]
    | t :: ts => if c = sep then [] :: t :: ts else (c :: t) :: ts

/-- `usize::MAX` on the 64-bit targets this program supports. -/
def USIZE_MAX : Nat := 2 ^ 64 - 1

/-- The kinds of `std::num::ParseIntError` reachable from `usize::from_str`. -/
inductive IntParseError where
  | empty
  | invalidDigit
  | posOverflow
deriving DecidableEq

/-- Digit-accumulation loop of `usize::from_str` (checked multiply/add). -/
def parseUsizeGo (acc : Nat) : List Char → Except IntParseError Nat
  | [] => .ok acc
  | c :: rest =>
    if '0' ≤ c ∧ c ≤ '9' then
      let acc' := acc * 10 + (c.toNat - 48)
      if USIZE_MAX < acc' then .error .posOverflow else parseUsizeGo acc' rest
    else .error .invalidDigit

/-- Rust `str::parse::<usize>`: empty input is `Empty`, an optional leading
`+` sign, then decimal digits with overflow checking. -/
def parseUsize (l : List Char) : Except IntParseError Nat :=
  match l with
  | [] => .error .empty
  | c :: rest =>
    if c = '+' then
      if rest = [] then .error .invalidDigit else parseUsizeGo 0 rest
    else parseUsizeGo 0 (c :: rest)

/-- `win::Modifiers`: bitflag set of the four modifier flags
(Control, Shift, Alt, Windows-key), per spec section 9. -/
structure Modifiers where
  control : Bool
  shift : Bool
  alt : Bool
  win : Bool
deriving DecidableEq

/-- The empty modifier set (`Modifiers::empty()`). -/
def Modifiers.empty : Modifiers := ⟨false, false, false, false⟩

/-- `Modifiers::CONTROL`. -/
def Modifiers.CONTROL : Modifiers := ⟨true, false, false, false⟩

/-- `Modifiers::SHIFT`. -/
def Modifiers.SHIFT : Modifiers := ⟨false, true, false, false⟩

/-- `Modifiers::ALT`. -/
def Modifiers.ALT : Modifiers := ⟨false, false, true, false⟩

/-- `Modifiers::WIN`. -/
def Modifiers.WIN : Modifiers := ⟨false, false, false, true⟩

/-- Bitwise-or of modifier sets (`|=` in `parse_hotkey`). -/
def Modifiers.union (a b : Modifiers) : Modifiers :=
  ⟨a.control || b.control, a.shift || b.shift, a.alt || b.alt, a.win || b.win⟩

/-- Modelled from the spec: the `win::VirtualKey` enumeration.  Its
definition lives in the full repository's `win.rs`, which is not among the
provided sources; the spec describes it as an enumeration of physical keys,
including the modifier keys themselves, with case-insensitive text parsing.
Letter keys are represented by their lowercase character. -/
inductive VirtualKey where
  | letterKey (c : Char)
  | controlKey
  | shiftKey
  | altKey
  | winKey
deriving DecidableEq

/-- Modelled from the spec: `VirtualKey::is_modifier`, true exactly for the
keys that are physically modifier keys. -/
def VirtualKey.is_modifier : VirtualKey → Bool
  | .controlKey => true
  | .shiftKey => true
  | .altKey => true
  | .winKey => true
  | .letterKey _ => false

/-- `win::ParseVirtualKeyError`. -/
inductive ParseVirtualKeyError where
  | unknownKey (got : List Char)
deriving DecidableEq

/-- `win::ParseModifierError`. -/
inductive ParseModifierError where
  | unknownModifier (got : List Char)
deriving DecidableEq

/-- Modelled from the spec: `VirtualKey`'s `FromStr` (missing from the
provided sources).  Case-insensitive; accepts the modifier-key names and
single letters; anything else fails with `UnknownKey(original_text)`. -/
def parseVirtualKey (l : List Char) : Except ParseVirtualKeyError VirtualKey :=
  let t := lowerLine l
  if t = str ("control") ∨ t = str ("ctrl") then .ok .controlKey
  else if t = str ("shift") then .ok .shiftKey
  else if t = str ("alt") then .ok .altKey
  else if t = str ("win") ∨ t = str ("windows") then .ok .winKey
  else
    match t with
    | [c] => if 'a' ≤ c ∧ c ≤ 'z' then .ok (.letterKey c) else .error (.unknownKey l)
    | _ => .error (.unknownKey l)

/-- Modelled from the spec: `Modifiers`'s `FromStr` (missing from the
provided sources).  Accepts a single case-insensitive modifier name and
returns the matching flag, else `UnknownModifier(original_text)`. -/
def parseModifier (l : List Char) : Except ParseModifierError Modifiers :=
  let t := lowerLine l
  if t = str ("control") ∨ t = str ("ctrl") then .ok Modifiers.CONTROL
  else if t = str ("shift") then .ok Modifiers.SHIFT
  else if t = str ("alt") then .ok Modifiers.ALT
  else if t = str ("win") ∨ t = str ("windows") then .ok Modifiers.WIN
  else .error (.unknownModifier l)

/-- `config::Hotkey`. -/
structure Hotkey where
  key : VirtualKey
  modifiers : Modifiers
deriving DecidableEq

/-- `config::LineError`. -/
inductive LineError where
  | malformed
  | unknownOption (got : List Char)
  | unknownModifier (got : List Char)
  | unknownKey (got : List Char)
  | expectedBool (got : List Char)
  | expectedInt (e : IntParseError)
  | modifierWithNoKey
deriving DecidableEq

/-- `config::ParseError`; the `Io` payload is the I/O error's message. -/
inductive ParseError where
  | io (msg : String)
  | line (e : LineError) (index : Nat)
deriving DecidableEq

/-- Display of `std::num::ParseIntError`. -/
def displayIntParseError : IntParseError → String
  | .empty => "cannot parse integer from empty string"
  | .invalidDigit => "invalid digit found in string"
  | .posOverflow => "number too large to fit in target type"

/-- The `fmt::Display` impl for `LineError`. -/
def displayLineError : LineError → String
  | .malformed =>
      "Line must be an option, followed by an equals sign, followed by a value."
  | .unknownOption got => "Unknown option \x60" ++ String.mk got ++ "\x60"
  | .unknownModifier got => "Unknown modifier \x60" ++ String.mk got ++ "\x60"
  | .unknownKey got => "Unknown key \x60" ++ String.mk got ++ "\x60"
  | .expectedBool got =>
      "Expected value to be one of \x60true\x60 or \x60false\x60, got " ++ String.mk got
  | .expectedInt e =>
      "Expected value to be a positive integer less than or equal to " ++
        toString USIZE_MAX ++ ", but failed to parse: " ++ displayIntParseError e
  | .modifierWithNoKey =>
      "It doesn\x27t make sense to have an empty key (None) with any modifiers, or other tokens"

/-- The `fmt::Display` impl for `ParseError`: a line error is reported with
a 1-based line number. -/
def displayParseError : ParseError → String
  | .io m => "I/O Error: " ++ m
  | .line e index => "Error at line " ++ toString (index + 1) ++ ": " ++ displayLineError e

/-- Modifier-accumulation loop of `parse_hotkey`: each remaining token is
trimmed, parsed, and or-ed into the accumulator, failing on the first
unknown token. -/
def parseModifiersAux (acc : Modifiers) : List (List Char) → Except LineError Modifiers
  | [] => .ok acc
  | t :: rest =>
    match parseModifier (trimList t) with
    | .error (.unknownModifier got) => .error (.unknownModifier got)
    | .ok m => parseModifiersAux (acc.union m) rest

/-- Body of `parse_hotkey` after the trigger-key token has been extracted:
`rk` is the raw last token of the `+`-split, `rest` the remaining tokens in
reversed order. -/
def parseHotkeyTokens (rk : List Char) (rest : List (List Char)) :
    Except LineError (Option Hotkey) :=
  let rawKey := trimList rk
  if rawKey = str ("none") then
    if rest = [] then .ok none else .error .modifierWithNoKey
  else
    match parseVirtualKey rawKey with
    | .error (.unknownKey got) => .error (.unknownKey got)
    | .ok key =>
      match parseModifiersAux Modifiers.empty rest with
      | .error e => .error e
      | .ok modifiers => .ok (some { key := key, modifiers := modifiers })

/-- `config::parse_hotkey`.  The source splits on `+`, reverses, and calls
`.next().unwrap()`; `none` here models that panic (reached only if the
split were empty, which never happens). -/
def parse_hotkey (hotkey : List Char) : Option (Except LineError (Option Hotkey)) :=
  match (splitOnChar '+' hotkey).reverse with
  | [] => none
  | rk :: rest => some (parseHotkeyTokens rk rest)

/-- `config::Config`. -/
structure Config where
  max_stack_size : Option Nat
  show_tray_icon : Bool
  pop_keybinding : Option Hotkey
  clear_keybinding : Option Hotkey
  swap_keybinding : Option Hotkey
  prevent_duplicate_push : Bool
deriving DecidableEq

/-- `Config::default()`. -/
def Config.default : Config where
  max_stack_size := some 100
  show_tray_icon := true
  pop_keybinding := some
    { key := .letterKey 'c', modifiers := Modifiers.CONTROL.union Modifiers.SHIFT }
  clear_keybinding := none
  swap_keybinding := none
  prevent_duplicate_push := false

/-- The `DEFAULT_CONFIG` template from `config.rs`, as its list of lines. -/
def DEFAULT_CONFIG : List (List Char) :=
  [str ("max_stack_size = 100"),
   str ("show_tray_icon = true"),
   str ("pop_keybinding = Control + Shift + C"),
   str ("swap_keybinding = None"),
   str ("clear_keybinding = None"),
   str ("prevent_duplicate_push = false")]

/-- One iteration of the `parse_config` loop: lowercase the line, trim it,
skip it if blank, split on `=`, and dispatch on the option name.  The outer
`Option` layer propagates the modelled panic of `parse_hotkey`; `none` is
never produced (the split is never empty). -/
def applyLine (config : Config) (i : Nat) (l : List Char) :
    Option (Except ParseError Config) :=
  let line := trimList (lowerLine l)
  if line = [] then some (.ok config)
  else
    match splitOnChar '=' line with
    | [p0, p1] =>
      let name := trimList p0
      if name = str ("max_stack_size") then
        let opt_value := trimList p1
        if opt_value = str ("none") then
          some (.ok { config with max_stack_size := none })
        else
          match parseUsize opt_value with
          | .ok value => some (.ok { config with max_stack_size := some value })
          | .error e => some (.error (.line (.expectedInt e) i))
      else if name = str ("show_tray_icon") then
        let v := trimList p1
        if v = str ("true") then some (.ok { config with show_tray_icon := true })
        else if v = str ("false") then some (.ok { config with show_tray_icon := false })
        else some (.error (.line (.expectedBool v) i))
      else if name = str ("prevent_duplicate_push") then
        let v := trimList p1
        if v = str ("true") then some (.ok { config with prevent_duplicate_push := true })
        else if v = str ("false") then some (.ok { config with prevent_duplicate_push := false })
        else some (.error (.line (.expectedBool v) i))
      else if name = str ("pop_keybinding") then
        match parse_hotkey (trimList p1) with
        | none => none
        | some (.ok binding) => some (.ok { config with pop_keybinding := binding })
        | some (.error e) => some (.error (.line e i))
      else if name = str ("clear_keybinding") then
        match parse_hotkey (trimList p1) with
        | none => none
        | some (.ok binding) => some (.ok { config with clear_keybinding := binding })
        | some (.error e) => some (.error (.line e i))
      else if name = str ("swap_keybinding") then
        match parse_hotkey (trimList p1) with
        | none => none
        | some (.ok binding) => some (.ok { config with swap_keybinding := binding })
        | some (.error e) => some (.error (.line e i))
      else some (.error (.line (.unknownOption name) i))
    | _ => some (.error (.line .malformed i))

/-- The enumerated loop of `parse_config`: `i` is the 0-based index of the
next line; the first line error aborts the whole parse. -/
def parseConfigGo (config : Config) (i : Nat) : List (List Char) →
    Option (Except ParseError Config)
  | [] => some (.ok config)
  | l :: rest =>
    match applyLine config i l with
    | none => none
    | some (.error e) => some (.error e)
    | some (.ok config') => parseConfigGo config' (i + 1) rest

/-- `config::parse_config`, over the list of lines of the input stream. -/
def parse_config (input : List (List Char)) : Option (Except ParseError Config) :=
  parseConfigGo Config.default 0 input

/-- Abstraction of the file-system environment `load_config` interacts
with: the result of `dirs::config_dir()`, the result of opening the
configuration file (its lines, when it opens), and whether creating the
default file succeeds (which `load_config` only logs). -/
structure FsEnv where
  configDir : Option (List Char)
  openFile : Option (List (List Char))
  createOk : Bool

/-- `config::load_config` over the abstracted file system: no directory →
defaults; file opens → parse it (propagating its result, panic included);
file absent → write the template, ignore failures, return defaults. -/
def load_config (env : FsEnv) : Option (Except ParseError Config) :=
  match env.configDir with
  | none => some (.ok Config.default)
  | some _ =>
    match env.openFile with
    | some lines => parse_config lines
    | none => some (.ok Config.default)

/-- Non-null raw pointer (`std::ptr::NonNull`), embedded as a nonzero
address.  `win::WindowHandle` and `win::ModuleHandle` are aliases of it. -/
abbrev NonNullPtr : Type := { n : Nat // n ≠ 0 }

/-- `win::WindowHandle = NonNull<HWND__>`. -/
abbrev WindowHandle : Type := NonNullPtr

/-- `win::ModuleHandle = NonNull<HINSTANCE__>`. -/
abbrev ModuleHandle : Type := NonNullPtr

/-- `win::ClassAtom` wraps a `NonZeroU16` class atom (the 16-bit width is
immaterial to the properties proved here; nonzeroness is the invariant). -/
abbrev ClassAtom : Type := { n : Nat // n ≠ 0 }

/-- `win::ErrorCode`: a raw OS failure code. -/
structure ErrorCode where
  code : Nat
deriving DecidableEq

/-- `NonNull::new_unchecked` / `NonZeroU16::new_unchecked`: `none` models
the undefined behavior of the unchecked constructor on a zero raw value. -/
def nonNullUnchecked (n : Nat) : Option NonNullPtr :=
  if h : n = 0 then none else some ⟨n, h⟩

/-- Outcome of one native `GetModuleHandleExW` call: its `BOOL` return
value, the handle it stored, and the `GetLastError` value afterwards. -/
structure GetModuleHandleExCall where
  result : Int
  handle : Nat
  lastError : Nat

/-- `win::get_module_handle_ex`: a zero native result is failure, reported
with the last-error code; otherwise the stored handle is wrapped unchecked
(`none` = that unchecked construction saw a null handle). -/
def get_module_handle_ex (call : GetModuleHandleExCall) :
    Option (Except ErrorCode ModuleHandle) :=
  if call.result = 0 then some (.error ⟨call.lastError⟩)
  else
    match nonNullUnchecked call.handle with
    | none => none
    | some h => some (.ok h)

/-- Outcome of one native `RegisterClassExW` call: the returned atom and
the `GetLastError` value afterwards. -/
structure RegisterClassExCall where
  result : Nat
  lastError : Nat

/-- `win::register_class_ex`: a zero atom is failure, reported with the
last-error code; otherwise the atom is wrapped unchecked. -/
def register_class_ex (module_handle : ModuleHandle) (name : List Char)
    (call : RegisterClassExCall) : Option (Except ErrorCode ClassAtom) :=
  if call.result = 0 then some (.error ⟨call.lastError⟩)
  else
    match nonNullUnchecked call.result with
    | none => none
    | some a => some (.ok a)

/-- Outcome of one native `CreateWindowExW` call: the returned window
handle and the `GetLastError` value afterwards. -/
structure CreateWindowExCall where
  handle : Nat
  lastError : Nat

/-- `win::create_window_ex`: a null handle is failure, reported with the
last-error code; otherwise the handle is wrapped unchecked. -/
def create_window_ex (ex_style : Nat) (class_atom : ClassAtom) (window_style : Nat)
    (x y width height : Int) (parent : Option WindowHandle)
    (call : CreateWindowExCall) : Option (Except ErrorCode WindowHandle) :=
  if call.handle = 0 then some (.error ⟨call.lastError⟩)
  else
    match nonNullUnchecked call.handle with
    | none => none
    | some h => some (.ok h)

/-- The raw native `MSG` structure filled in by `GetMessageW`. -/
structure RawMsg where
  hwnd : Nat
  message : Nat
  wParam : Nat
  lParam : Int

/-- `win::Message`. -/
structure Message where
  hwnd : Option WindowHandle
  message : Nat
  w_param : Nat
  l_param : Int

/-- The `From<MSG> for Message` impl: the window handle is converted with
the checked `WindowHandle::new` (null becomes `none`). -/
def messageOfRaw (m : RawMsg) : Message where
  hwnd := if h : m.hwnd = 0 then none else some ⟨m.hwnd, h⟩
  message := m.message
  w_param := m.wParam
  l_param := m.lParam

/-- Outcome of one native `GetMessageW` call: its `BOOL` return value
(-1 on failure, 0 for a quit message, nonzero otherwise), the message it
stored, and the `GetLastError` value afterwards. -/
structure GetMessageCall where
  result : Int
  msg : RawMsg
  lastError : Nat

/-- `win::get_message`: only a native result of -1 is an error (wrapping
the last-error code); every other result, the quit signal included, yields
the retrieved message. -/
def get_message (hwnd : Option WindowHandle) (min_value max_value : Nat)
    (call : GetMessageCall) : Except ErrorCode Message :=
  if call.result = -1 then .error ⟨call.lastError⟩
  else .ok (messageOfRaw call.msg)

/-! Helper lemmas shared by the claim theorems. -/

/-- Rust's `str::split` never yields an empty iterator. -/
theorem splitOnChar_ne_nil (sep : Char) (l : List Char) : splitOnChar sep l ≠ [] := by
  cases l with
  | nil => simp [splitOnChar]
  | cons c rest =>
    unfold splitOnChar
    cases h : splitOnChar sep rest with
    | nil => simp
    | cons t ts => dsimp only; split <;> simp

/-- Union of modifier sets commutes in its right arguments. -/
theorem Modifiers.union_right_comm (a b c : Modifiers) :
    (a.union b).union c = (a.union c).union b := by
  simp [Modifiers.union, Bool.or_assoc, Bool.or_comm, Bool.or_left_comm]

/-- Union of modifier sets absorbs an immediate duplicate. -/
theorem Modifiers.union_union_self (a b : Modifiers) :
    (a.union b).union b = a.union b := by
  simp [Modifiers.union, Bool.or_assoc]

/-- A successful modifier accumulation is invariant under permutation of
the token list. -/
theorem parseModifiersAux_perm {l1 l2 : List (List Char)} (p : l1.Perm l2) :
    ∀ acc m, parseModifiersAux acc l1 = .ok m → parseModifiersAux acc l2 = .ok m := by
  induction p with
  | nil => exact fun _ _ h => h
  | cons x _ ih =>
    intro acc m h
    simp only [parseModifiersAux] at h ⊢
    cases hx : parseModifier (trimList x) with
    | error e =>
      cases e with
      | unknownModifier got => rw [hx] at h; simp at h
    | ok mx =>
      rw [hx] at h
      exact ih _ _ h
  | swap x y l =>
    intro acc m h
    simp only [parseModifiersAux] at h ⊢
    cases hy : parseModifier (trimList y) with
    | error e =>
      cases e with
      | unknownModifier got => rw [hy] at h; simp at h
    | ok my =>
      rw [hy] at h
      cases hx : parseModifier (trimList x) with
      | error e =>
        cases e with
        | unknownModifier got => rw [hx] at h; simp at h
      | ok mx =>
        rw [hx] at h
        have h' : parseModifiersAux ((acc.union my).union mx) l = Except.ok m := h
        show parseModifiersAux ((acc.union mx).union my) l = Except.ok m
        rw [Modifiers.union_right_comm]
        exact h'
  | trans _ _ ih1 ih2 => exact fun acc m h => ih2 _ _ (ih1 _ _ h)

/-- A duplicated modifier token yields the same accumulation as a single
occurrence. -/
theorem parseModifiersAux_dup (acc : Modifiers) (t : List Char)
    (rest : List (List Char)) :
    parseModifiersAux acc (t :: t :: rest) = parseModifiersAux acc (t :: rest) := by
  simp only [parseModifiersAux]
  cases h : parseModifier (trimList t) with
  | error e =>
    cases e with
    | unknownModifier got => rfl
  | ok m =>
    show parseModifiersAux ((acc.union m).union m) rest = parseModifiersAux (acc.union m) rest
    rw [Modifiers.union_union_self]

/-- A line is processed only through its lowercased form. -/
theorem applyLine_lower_congr (config : Config) (i : Nat) {l1 l2 : List Char}
    (h : lowerLine l1 = lowerLine l2) :
    applyLine config i l1 = applyLine config i l2 := by
  unfold applyLine
  rw [h]

/-- The parse loop is invariant under changes that preserve each line's
lowercased form. -/
theorem parseConfigGo_lower_congr :
    ∀ (ls1 ls2 : List (List Char)) (config : Config) (i : Nat),
      ls1.map lowerLine = ls2.map lowerLine →
      parseConfigGo config i ls1 = parseConfigGo config i ls2 := by
  intro ls1
  induction ls1 with
  | nil =>
    intro ls2 config i h
    cases ls2 with
    | nil => rfl
    | cons _ _ => simp at h
  | cons l rest ih =>
    intro ls2 config i h
    cases ls2 with
    | nil => simp at h
    | cons l' rest' =>
      simp only [List.map_cons, List.cons.injEq] at h
      obtain ⟨h1, h2⟩ := h
      simp only [parseConfigGo]
      rw [applyLine_lower_congr config i h1]
      cases happly : applyLine config i l' with
      | none => rfl
      | some r =>
        cases r with
        | error e => rfl
        | ok config' => exact ih rest' config' (i + 1) h2

/-! Claim theorems. -/

/-- Claim C1: parsing the documented default configuration template with
`parse_config` succeeds and yields the compiled-in default `Config`
(max_stack_size = some 100, show_tray_icon = true, pop = Control+Shift+C,
swap = none, clear = none, prevent_duplicate_push = false): re-parsing the
serialized default reproduces the default. -/
theorem C1_default_template_roundtrip :
    parse_config DEFAULT_CONFIG = some (.ok Config.default) := by decide

/-- Claim C2: `parse_hotkey` on the sole token `none` returns an absent
binding, and whenever any tokens precede a trailing trimmed `none` trigger
token it fails with `ModifierWithNoKey`. -/
theorem C2_none_binding_policy (s rk : List Char) (rest : List (List Char))
    (h1 : (splitOnChar '+' s).reverse = rk :: rest)
    (h2 : trimList rk = str ("none")) (h3 : rest ≠ []) :
    parse_hotkey s = some (.error .modifierWithNoKey) ∧
      parse_hotkey (str ("none")) = some (.ok none) := by
  constructor
  · unfold parse_hotkey
    rw [h1]
    simp [parseHotkeyTokens, h2, h3]
  · decide

theorem C2_none_binding_policy_witness :
    parse_hotkey (str ("shift + none")) = some (.error .modifierWithNoKey) ∧
      parse_hotkey (str ("none")) = some (.ok none) :=
  C2_none_binding_policy (str ("shift + none")) (str (" none")) [str ("shift ")]
    (by decide) (by decide) (by decide)

/-- Claim C3 counterexample: blank lines do contribute to the line index
reported for later lines — prepending a whitespace-only line to
`foo = bar` moves the reported index of the `UnknownOption` error from 0
to 1, contradicting the claim as stated. -/
theorem C3_blank_line_shifts_index :
    parse_config [str (" "), str ("foo = bar")] =
        some (.error (.line (.unknownOption (str ("foo"))) 1)) ∧
      parse_config [str ("foo = bar")] =
        some (.error (.line (.unknownOption (str ("foo"))) 0)) := by decide

/-- Claim C3 (amended): lines that are empty after trimming are skipped
entirely — they change neither the accumulated `Config` nor produce an
error — but they still occupy their 0-based physical line index, so the
index reported for a later line counts the blank lines before it. -/
theorem C3_blank_lines_skipped (config : Config) (i : Nat) (l : List Char)
    (rest : List (List Char)) (h : trimList (lowerLine l) = []) :
    parseConfigGo config i (l :: rest) = parseConfigGo config (i + 1) rest := by
  have ha : applyLine config i l = some (.ok config) := by
    unfold applyLine
    rw [h]
    simp
  simp [parseConfigGo, ha]

theorem C3_blank_lines_skipped_witness :
    trimList (lowerLine (str ("   "))) = [] ∧
      parseConfigGo Config.default 0 [str ("   "), str ("max_stack_size = 7")] =
        parseConfigGo Config.default 1 [str ("max_stack_size = 7")] :=
  ⟨by decide, C3_blank_lines_skipped Config.default 0 (str ("   "))
      [str ("max_stack_size = 7")] (by decide)⟩

/-- Claim C4: `parse_config` is case-insensitive for option names, boolean
literals and hotkey tokens — any two inputs whose lines agree after ASCII
lowercasing parse identically; in particular `max_STACK_size = nonE`
parses identically to `max_stack_size = none`. -/
theorem C4_case_insensitive (ls1 ls2 : List (List Char))
    (h : ls1.map lowerLine = ls2.map lowerLine) :
    parse_config ls1 = parse_config ls2 ∧
      parse_config [str ("max_STACK_size = nonE")] =
        parse_config [str ("max_stack_size = none")] :=
  ⟨parseConfigGo_lower_congr ls1 ls2 Config.default 0 h, by decide⟩

theorem C4_case_insensitive_witness :
    [str ("Show_Tray_Icon = TRUE")].map lowerLine =
        [str ("show_tray_icon = true")].map lowerLine ∧
      parse_config [str ("Show_Tray_Icon = TRUE")] =
        parse_config [str ("show_tray_icon = true")] :=
  ⟨by decide, (C4_case_insensitive [str ("Show_Tray_Icon = TRUE")]
      [str ("show_tray_icon = true")] (by decide)).1⟩

/-- Claim C5: `parse_config` fails fast — the first failing line aborts the
whole parse with `ParseError.Line(cause, i)` at that line's 0-based index,
regardless of the remaining lines; `foo = bar` fails with
`UnknownOption("foo")` at index 0; and the user-facing display of a line
error reports the index 1-based. -/
theorem C5_fail_fast (config : Config) (i : Nat) (l : List Char)
    (rest : List (List Char)) (e : ParseError)
    (h : applyLine config i l = some (.error e)) :
    parseConfigGo config i (l :: rest) = some (.error e) ∧
      parse_config [str ("foo = bar")] =
        some (.error (.line (.unknownOption (str ("foo"))) 0)) ∧
      ∀ (le : LineError) (j : Nat),
        displayParseError (.line le j) =
          "Error at line " ++ toString (j + 1) ++ ": " ++ displayLineError le := by
  refine ⟨?_, by decide, fun le j => rfl⟩
  simp [parseConfigGo, h]

theorem C5_fail_fast_witness :
    applyLine Config.default 0 (str ("foo = bar")) =
        some (.error (.line (.unknownOption (str ("foo"))) 0)) ∧
      parseConfigGo Config.default 0 [str ("foo = bar"), str ("show_tray_icon = true")] =
        some (.error (.line (.unknownOption (str ("foo"))) 0)) :=
  ⟨by decide, (C5_fail_fast Config.default 0 (str ("foo = bar"))
      [str ("show_tray_icon = true")] (.line (.unknownOption (str ("foo"))) 0)
      (by decide)).1⟩

/-- Claim C6: the modifier tokens of a hotkey are combined by set union, so
a successful modifier parse is invariant under permutation of the modifier
tokens, duplicate tokens are absorbed, and both `ctrl + shift + c` and
`shift + ctrl + c` parse to the key `c` with modifiers Control and
Shift. -/
theorem C6_modifier_union (l1 l2 : List (List Char)) (m : Modifiers)
    (hp : l1.Perm l2) (h : parseModifiersAux Modifiers.empty l1 = .ok m) :
    parseModifiersAux Modifiers.empty l2 = .ok m ∧
      (∀ (acc : Modifiers) (t : List Char) (rest : List (List Char)),
        parseModifiersAux acc (t :: t :: rest) = parseModifiersAux acc (t :: rest)) ∧
      parse_hotkey (str ("ctrl + shift + c")) =
        some (.ok (some ⟨.letterKey 'c', Modifiers.CONTROL.union Modifiers.SHIFT⟩)) ∧
      parse_hotkey (str ("shift + ctrl + c")) =
        some (.ok (some ⟨.letterKey 'c', Modifiers.CONTROL.union Modifiers.SHIFT⟩)) :=
  ⟨parseModifiersAux_perm hp Modifiers.empty m h, parseModifiersAux_dup,
    by decide, by decide⟩

theorem C6_modifier_union_witness :
    parseModifiersAux Modifiers.empty [str (" shift "), str ("ctrl ")] =
        .ok (Modifiers.CONTROL.union Modifiers.SHIFT) ∧
      parseModifiersAux Modifiers.empty [str ("ctrl "), str (" shift ")] =
        .ok (Modifiers.CONTROL.union Modifiers.SHIFT) :=
  ⟨by decide, (C6_modifier_union [str (" shift "), str ("ctrl ")]
      [str ("ctrl "), str (" shift ")] (Modifiers.CONTROL.union Modifiers.SHIFT)
      (List.Perm.swap (str ("ctrl ")) (str (" shift ")) [])
      (by decide)).1⟩

/-- Claim C7: `load_config` absorbs configuration-directory resolution
failure — when the directory cannot be resolved it returns the default
`Config` without error or panic — while a file that opens but is malformed
propagates its `ParseError` to the caller. -/
theorem C7_load_config_fallback (env env' : FsEnv) (p : List Char)
    (lines : List (List Char)) (e : ParseError)
    (h1 : env.configDir = none) (h2 : env'.configDir = some p)
    (h3 : env'.openFile = some lines)
    (h4 : parse_config lines = some (.error e)) :
    load_config env = some (.ok Config.default) ∧
      load_config env' = some (.error e) := by
  constructor
  · simp [load_config, h1]
  · simp [load_config, h2, h3, h4]

theorem C7_load_config_fallback_witness :
    load_config ⟨none, none, true⟩ = some (.ok Config.default) ∧
      load_config ⟨some (str ("home")), some [str ("foo = bar")], true⟩ =
        some (.error (.line (.unknownOption (str ("foo"))) 0)) :=
  C7_load_config_fallback ⟨none, none, true⟩
    ⟨some (str ("home")), some [str ("foo = bar")], true⟩
    (str ("home")) [str ("foo = bar")] (.line (.unknownOption (str ("foo"))) 0)
    rfl rfl rfl (by decide)

/-- Claim C8: `get_message` returns an error exactly when the native call
itself fails (result -1), wrapping the OS's last-reported error code; any
other native result — the quit signal included — is returned as a normal
message value. -/
theorem C8_get_message_error_contract (hwnd : Option WindowHandle)
    (min_value max_value : Nat) (c1 c2 : GetMessageCall)
    (h1 : c1.result = -1) (h2 : c2.result ≠ -1) :
    get_message hwnd min_value max_value c1 = .error ⟨c1.lastError⟩ ∧
      get_message hwnd min_value max_value c2 = .ok (messageOfRaw c2.msg) := by
  constructor
  · simp [get_message, h1]
  · simp [get_message, h2]

theorem C8_get_message_error_contract_witness :
    get_message none 0 0 ⟨-1, ⟨0, 0, 0, 0⟩, 5⟩ = .error ⟨5⟩ ∧
      get_message none 0 0 ⟨0, ⟨0, 18, 0, 0⟩, 0⟩ = .ok (messageOfRaw ⟨0, 18, 0, 0⟩) :=
  C8_get_message_error_contract none 0 0 ⟨-1, ⟨0, 0, 0, 0⟩, 5⟩ ⟨0, ⟨0, 18, 0, 0⟩, 0⟩
    rfl (by decide)

/-- Claim C9: the wrappers construct platform handles only after the native
success check: `register_class_ex` and `create_window_ex` never reach their
unchecked constructions with a zero raw value, `get_module_handle_ex` never
does so provided the OS contract that a successful call stores a non-null
handle, and every handle any wrapper exposes is nonzero. -/
theorem C9_handles_nonnull (m : ModuleHandle) (name : List Char)
    (rc : RegisterClassExCall) (cw : CreateWindowExCall)
    (gm : GetModuleHandleExCall) (ex_style window_style : Nat)
    (x y width height : Int) (parent : Option WindowHandle) (atom : ClassAtom)
    (hos : gm.result ≠ 0 → gm.handle ≠ 0) :
    get_module_handle_ex gm ≠ none ∧
      register_class_ex m name rc ≠ none ∧
      create_window_ex ex_style atom window_style x y width height parent cw ≠ none ∧
      (∀ h, get_module_handle_ex gm = some (.ok h) → h.val ≠ 0) ∧
      (∀ a, register_class_ex m name rc = some (.ok a) → a.val ≠ 0) ∧
      (∀ h, create_window_ex ex_style atom window_style x y width height parent cw =
        some (.ok h) → h.val ≠ 0) := by
  refine ⟨?_, ?_, ?_, fun h _ => h.2, fun a _ => a.2, fun h _ => h.2⟩
  · by_cases hr : gm.result = 0
    · simp [get_module_handle_ex, hr]
    · have hh := hos hr
      simp [get_module_handle_ex, hr, nonNullUnchecked, hh]
  · by_cases hr : rc.result = 0
    · simp [register_class_ex, hr]
    · simp [register_class_ex, hr, nonNullUnchecked]
  · by_cases hh : cw.handle = 0
    · simp [create_window_ex, hh]
    · simp [create_window_ex, hh, nonNullUnchecked]

theorem C9_handles_nonnull_witness :
    get_module_handle_ex ⟨1, 7, 0⟩ ≠ none ∧
      register_class_ex ⟨3, by decide⟩ (str ("ripclip")) ⟨9, 0⟩ ≠ none ∧
      create_window_ex 0 ⟨9, by decide⟩ 0 0 0 0 0 none ⟨11, 0⟩ ≠ none :=
  have hthm := C9_handles_nonnull ⟨3, by decide⟩ (str ("ripclip")) ⟨9, 0⟩ ⟨11, 0⟩
    ⟨1, 7, 0⟩ 0 0 0 0 0 0 none ⟨9, by decide⟩ (fun _ => by decide)
  ⟨hthm.1, hthm.2.1, hthm.2.2.1⟩

/-- Claim C10: `parse_hotkey` is total — splitting any string on `+` yields
at least one token, so the trigger-key extraction never panics and every
input produces a value (an ok binding, an ok absent binding, or a line
error), never the panic marker. -/
theorem C10_parse_hotkey_total (s : List Char) :
    splitOnChar '+' s ≠ [] ∧ ∃ r, parse_hotkey s = some r := by
  refine ⟨splitOnChar_ne_nil '+' s, ?_⟩
  cases h : (splitOnChar '+' s).reverse with
  | nil => exact absurd (List.reverse_eq_nil_iff.mp h) (splitOnChar_ne_nil '+' s)
  | cons rk rest => exact ⟨parseHotkeyTokens rk rest, by simp [parse_hotkey, h]⟩

theorem C10_parse_hotkey_total_witness :
    splitOnChar '+' (str ("")) ≠ [] ∧ ∃ r, parse_hotkey (str ("")) = some r :=
  C10_parse_hotkey_total (str (""))
